import Mathlib

/-!
Verification of the medikamententagebuch application core logic.

This file gives a shallow embedding, in Lean, of the state and the pure
content of the operations of the application services
(`data.service.ts`, `lock.service.ts`, `ui.service.ts`,
`notification.service.ts`) and of the statistics component
(`statistics.component.ts`), and proves properties of them.

Conventions of the embedding:
* Angular signals become explicit fields of an `AppState` record; a method
  that writes signals becomes a function `AppState → AppState` (or returns
  the written fields).
* TypeScript optional fields / values that may be `undefined` or `null`
  become `Option`.
* JavaScript string truthiness (`""` is falsy) and number truthiness
  (`0` is falsy) are modelled explicitly where the source relies on them.
* `JSON.parse` results are modelled by `ParsedJson`: `JSON.parse` throwing
  is `Option.none` at the call site, a parsed `null` is `ParsedJson.jnull`,
  and any other parsed value is `ParsedJson.jobj` carrying the fields the
  importer reads (a missing field is `none`; this also covers parsed
  primitives, on which every property access yields `undefined`).
-/

/-- Perception of an effect: `positive | negative | neutral` (models.ts). -/
inductive EffectPerception where
  | positive
  | negative
  | neutral
deriving DecidableEq, Repr

/-- A mood (models.ts): `{ id, description, emoji }`. -/
structure Mood where
  id : String
  description : String
  emoji : String
deriving DecidableEq, Repr

/-- An effect (models.ts): `{ id, description, emoji, perception }`. -/
structure Effect where
  id : String
  description : String
  emoji : String
  perception : EffectPerception
deriving DecidableEq, Repr

/-- A symptom, as used by `data.service.ts` (same shape as `Mood`). -/
structure Symptom where
  id : String
  description : String
  emoji : String
deriving DecidableEq, Repr

/-- An activity, as used by `data.service.ts` (same shape as `Mood`). -/
structure Activity where
  id : String
  description : String
  emoji : String
deriving DecidableEq, Repr

/-- A manufacturer (models.ts): `{ id, name }`. -/
structure Manufacturer where
  id : String
  name : String
deriving DecidableEq, Repr

/-- A dosage (models.ts): `{ id, amount, unit }`; `amount` is a JS number. -/
structure Dosage where
  id : String
  amount : Int
  unit : String
deriving DecidableEq, Repr

/-- An active ingredient content (models.ts): `{ id, amount, unit }`, amount a string. -/
structure ActiveIngredient where
  id : String
  amount : String
  unit : String
deriving DecidableEq, Repr

/-- An ingredient, as used by `data.service.ts`: an id plus a name. -/
structure Ingredient where
  id : String
  name : String
deriving DecidableEq, Repr

/-- A preparation (models.ts, extended with `ingredientIds` as used by
`data.service.ts`). The foreign keys are optional. -/
structure Preparation where
  id : String
  name : String
  manufacturerId : Option String
  activeIngredientId : Option String
  dosageId : Option String
  ingredientIds : Option (List String)
deriving DecidableEq, Repr

/-- A diary entry (models.ts, extended with the `symptomIds`, `activityIds`
and `ingredientIds` fields used by `data.service.ts`). Mood, dosage and
effects are stored as copies, not references. -/
structure DiaryEntry where
  id : String
  datetime : String
  mood : Mood
  preparationId : Option String
  dosage : Option Dosage
  effects : List Effect
  symptomIds : Option (List String)
  activityIds : Option (List String)
  ingredientIds : Option (List String)
  note : Option String
deriving DecidableEq, Repr

/-- A reminder (models.ts): `{ id, time, days }` with `time` in `"HH:mm"`
format and `days` the selected weekdays (1 = Sunday … 7 = Saturday). -/
structure Reminder where
  id : String
  time : String
  days : List Nat
deriving DecidableEq, Repr

/-- The entity kinds handled by the generic CRUD code, as in the `CrudEntity`
union consumed by `DataService.deleteItem`. -/
inductive CrudEntity where
  | Mood
  | Effect
  | Symptom
  | Activity
  | Manufacturer
  | Dosage
  | ActiveIngredient
  | Preparation
  | Ingredient
  | CustomEmoji
deriving DecidableEq, Repr

/-- Lock settings (data.service.ts): `{ isEnabled, pin, timeout }`. -/
structure LockSettings where
  isEnabled : Bool
  pin : Option String
  timeout : Int
deriving DecidableEq, Repr

/-- Module visibility settings (data.service.ts). -/
structure ModuleSettings where
  showMood : Bool
  showDosage : Bool
  showSymptoms : Bool
  showActivities : Bool
  showEffects : Bool
  showNote : Bool
  showDateGaps : Bool
  showIngredients : Bool
deriving DecidableEq, Repr

/-- The whole application state held in the `DataService` signals, plus the
language of the `TranslationService` (written by `importData`). The theme is
kept as a string, as at runtime; its TypeScript type is `light | dark`. -/
structure AppState where
  theme : String
  language : String
  lockSettings : LockSettings
  moduleSettings : ModuleSettings
  moods : List Mood
  effects : List Effect
  symptoms : List Symptom
  activities : List Activity
  manufacturers : List Manufacturer
  dosages : List Dosage
  activeIngredients : List ActiveIngredient
  preparations : List Preparation
  ingredients : List Ingredient
  diaryEntries : List DiaryEntry
  reminders : List Reminder
  customEmojis : List String
deriving DecidableEq, Repr

/-- Generic list update as in `DataService.updateItem`:
`items.map(i => i.id === updatedItem.id ? updatedItem : i)`. -/
def updateItem (getId : α → String) (items : List α) (updatedItem : α) : List α :=
  items.map fun i => if getId i = getId updatedItem then updatedItem else i

/-- `DataService.updateItem(this.moods, m)`. The generic `updateItem` writes
only the signal it is handed. -/
def updateItemMoods (s : AppState) (m : Mood) : AppState :=
  { s with moods := updateItem Mood.id s.moods m }

/-- `DataService.updateItem(this.effects, e)`. -/
def updateItemEffects (s : AppState) (e : Effect) : AppState :=
  { s with effects := updateItem Effect.id s.effects e }

/-- `DataService.updateItem(this.dosages, d)`. -/
def updateItemDosages (s : AppState) (d : Dosage) : AppState :=
  { s with dosages := updateItem Dosage.id s.dosages d }

/-- `DataService.deleteItem(entityType, id)` (data.service.ts, lines
508-574): removes the entity with the given id from its list and clears the
dangling references, exactly as the `switch` in the source does. -/
def deleteItem (entityType : CrudEntity) (id : String) (s : AppState) : AppState :=
  match entityType with
  | .Mood => { s with moods := s.moods.filter (fun i => i.id ≠ id) }
  | .Effect => { s with effects := s.effects.filter (fun i => i.id ≠ id) }
  | .Symptom =>
      { s with
        symptoms := s.symptoms.filter (fun i => i.id ≠ id)
        diaryEntries := s.diaryEntries.map fun entry =>
          match entry.symptomIds with
          | some ids =>
              if id ∈ ids then
                let newIds := ids.filter (fun sid => sid ≠ id)
                { entry with symptomIds := if newIds.length > 0 then some newIds else none }
              else entry
          | none => entry }
  | .Activity =>
      { s with
        activities := s.activities.filter (fun i => i.id ≠ id)
        diaryEntries := s.diaryEntries.map fun entry =>
          match entry.activityIds with
          | some ids =>
              if id ∈ ids then
                let newIds := ids.filter (fun aid => aid ≠ id)
                { entry with activityIds := if newIds.length > 0 then some newIds else none }
              else entry
          | none => entry }
  | .Manufacturer =>
      { s with
        manufacturers := s.manufacturers.filter (fun i => i.id ≠ id)
        preparations := s.preparations.map fun prep =>
          if prep.manufacturerId = some id then { prep with manufacturerId := none } else prep }
  | .Dosage =>
      { s with
        dosages := s.dosages.filter (fun i => i.id ≠ id)
        preparations := s.preparations.map fun prep =>
          if prep.dosageId = some id then { prep with dosageId := none } else prep }
  | .ActiveIngredient =>
      { s with
        activeIngredients := s.activeIngredients.filter (fun i => i.id ≠ id)
        preparations := s.preparations.map fun prep =>
          if prep.activeIngredientId = some id then { prep with activeIngredientId := none } else prep }
  | .Preparation =>
      { s with
        preparations := s.preparations.filter (fun i => i.id ≠ id)
        diaryEntries := s.diaryEntries.map fun entry =>
          if entry.preparationId = some id then { entry with preparationId := none } else entry }
  | .Ingredient =>
      { s with
        ingredients := s.ingredients.filter (fun i => i.id ≠ id)
        preparations := s.preparations.map fun prep =>
          match prep.ingredientIds with
          | some ids =>
              if id ∈ ids then
                let newIds := ids.filter (fun ingId => ingId ≠ id)
                { prep with ingredientIds := if newIds.length > 0 then some newIds else none }
              else prep
          | none => prep }
  | .CustomEmoji =>
      { s with customEmojis := s.customEmojis.filter (fun i => i ≠ id) }

/-- JS string truthiness of an optional string: `undefined`, `null` and `""`
are falsy, every other string is truthy. -/
def jsTruthyOptStr : Option String → Bool
  | none => false
  | some s => s != ""

/-- JS `v || dflt` for an optional string `v` (used for `data.theme || "light"`). -/
def jsOrString (v : Option String) (dflt : String) : String :=
  match v with
  | some s => if s = "" then dflt else s
  | none => dflt

/-- The lock settings as serialized by `exportData`: the `pin` field is
destructured away before `JSON.stringify`. -/
structure ExportLockSettings where
  isEnabled : Bool
  timeout : Int
deriving DecidableEq, Repr

/-- The object passed to `JSON.stringify` by `DataService.exportData`
(data.service.ts, lines 586-606). -/
structure ExportBlob where
  theme : String
  language : String
  lockSettings : ExportLockSettings
  moduleSettings : ModuleSettings
  moods : List Mood
  effects : List Effect
  symptoms : List Symptom
  activities : List Activity
  manufacturers : List Manufacturer
  dosages : List Dosage
  activeIngredients : List ActiveIngredient
  preparations : List Preparation
  ingredients : List Ingredient
  diaryEntries : List DiaryEntry
  reminders : List Reminder
  customEmojis : List String
deriving DecidableEq, Repr

/-- `DataService.exportData`: serializes the whole state except the PIN. -/
def exportData (s : AppState) : ExportBlob :=
  { theme := s.theme
    language := s.language
    lockSettings := { isEnabled := s.lockSettings.isEnabled, timeout := s.lockSettings.timeout }
    moduleSettings := s.moduleSettings
    moods := s.moods
    effects := s.effects
    symptoms := s.symptoms
    activities := s.activities
    manufacturers := s.manufacturers
    dosages := s.dosages
    activeIngredients := s.activeIngredients
    preparations := s.preparations
    ingredients := s.ingredients
    diaryEntries := s.diaryEntries
    reminders := s.reminders
    customEmojis := s.customEmojis }

/-- The `lockSettings` field as read by `importData`: both sub-fields may be
absent in the parsed JSON. -/
structure LockImport where
  isEnabled : Option Bool := none
  timeout : Option Int := none
deriving DecidableEq, Repr

/-- The `moduleSettings` field as read by `importData`: every key may be
absent; present keys override the defaults via object spread. -/
structure ModuleImport where
  showMood : Option Bool := none
  showDosage : Option Bool := none
  showSymptoms : Option Bool := none
  showActivities : Option Bool := none
  showEffects : Option Bool := none
  showNote : Option Bool := none
  showDateGaps : Option Bool := none
  showIngredients : Option Bool := none
deriving DecidableEq, Repr

/-- The fields `importData` reads off a successfully parsed non-null JSON
value. A missing field is `none` (property access yields `undefined`); this
also represents parsed primitives and arrays, on which every one of these
property accesses yields `undefined`. -/
structure ImportFields where
  theme : Option String := none
  language : Option String := none
  lockSettings : Option LockImport := none
  moduleSettings : Option ModuleImport := none
  moods : Option (List Mood) := none
  effects : Option (List Effect) := none
  symptoms : Option (List Symptom) := none
  activities : Option (List Activity) := none
  manufacturers : Option (List Manufacturer) := none
  dosages : Option (List Dosage) := none
  activeIngredients : Option (List ActiveIngredient) := none
  preparations : Option (List Preparation) := none
  ingredients : Option (List Ingredient) := none
  diaryEntries : Option (List DiaryEntry) := none
  reminders : Option (List Reminder) := none
  customEmojis : Option (List String) := none
deriving DecidableEq, Repr

/-- Result of `JSON.parse` on a string that parsed successfully: either the
JSON value `null`, or any other value, viewed through the fields the
importer reads. -/
inductive ParsedJson where
  | jnull
  | jobj (fields : ImportFields)
deriving DecidableEq, Repr

/-- The default `ModuleSettings` object built inside `importData`. -/
def defaultModuleSettings : ModuleSettings :=
  { showMood := true
    showDosage := true
    showSymptoms := true
    showActivities := true
    showEffects := true
    showNote := true
    showDateGaps := true
    showIngredients := true }

/-- `{ ...defaultModuleSettings, ...(data.moduleSettings || {}) }`. -/
def mergeModuleSettings (mi : Option ModuleImport) : ModuleSettings :=
  match mi with
  | none => defaultModuleSettings
  | some m =>
      { showMood := m.showMood.getD true
        showDosage := m.showDosage.getD true
        showSymptoms := m.showSymptoms.getD true
        showActivities := m.showActivities.getD true
        showEffects := m.showEffects.getD true
        showNote := m.showNote.getD true
        showDateGaps := m.showDateGaps.getD true
        showIngredients := m.showIngredients.getD true }

/-- `DataService.importData` (data.service.ts, lines 614-665).
The argument `input` is the outcome of `JSON.parse`: `none` when parsing
threw (the `catch` branch runs and nothing is written), `some .jnull` when
the string parsed to `null` (the very first property access
`data.theme` throws a `TypeError`, the `catch` branch runs and nothing is
written), and `some (.jobj d)` otherwise. Returns the boolean result
together with the new state. -/
def importData (s : AppState) (input : Option ParsedJson) : Bool × AppState :=
  match input with
  | none => (false, s)
  | some .jnull => (false, s)
  | some (.jobj d) =>
      let language :=
        match d.language with
        | some l => if l = "en" ∨ l = "de" then l else s.language
        | none => s.language
      let importedSettings := d.lockSettings.getD {}
      let currentPin := s.lockSettings.pin
      let shouldBeEnabled : Bool :=
        decide (importedSettings.isEnabled = some true) && jsTruthyOptStr currentPin
      (true,
        { theme := jsOrString d.theme "light"
          language := language
          lockSettings :=
            { isEnabled := shouldBeEnabled
              pin := if shouldBeEnabled then currentPin else none
              timeout := importedSettings.timeout.getD 0 }
          moduleSettings := mergeModuleSettings d.moduleSettings
          moods := d.moods.getD []
          effects := d.effects.getD []
          symptoms := d.symptoms.getD []
          activities := d.activities.getD []
          manufacturers := d.manufacturers.getD []
          dosages := d.dosages.getD []
          activeIngredients := d.activeIngredients.getD []
          preparations := d.preparations.getD []
          ingredients := d.ingredients.getD []
          diaryEntries := d.diaryEntries.getD []
          reminders := d.reminders.getD []
          customEmojis := d.customEmojis.getD [] })

/-- All module settings present, as `JSON.stringify` writes them. -/
def moduleSettingsToImport (m : ModuleSettings) : ModuleImport :=
  { showMood := some m.showMood
    showDosage := some m.showDosage
    showSymptoms := some m.showSymptoms
    showActivities := some m.showActivities
    showEffects := some m.showEffects
    showNote := some m.showNote
    showDateGaps := some m.showDateGaps
    showIngredients := some m.showIngredients }

/-- `JSON.parse (JSON.stringify blob)` for an export blob: every serialized
field is present in the parsed object. -/
def parseOfExport (b : ExportBlob) : ParsedJson :=
  .jobj
    { theme := some b.theme
      language := some b.language
      lockSettings := some { isEnabled := some b.lockSettings.isEnabled, timeout := some b.lockSettings.timeout }
      moduleSettings := some (moduleSettingsToImport b.moduleSettings)
      moods := some b.moods
      effects := some b.effects
      symptoms := some b.symptoms
      activities := some b.activities
      manufacturers := some b.manufacturers
      dosages := some b.dosages
      activeIngredients := some b.activeIngredients
      preparations := some b.preparations
      ingredients := some b.ingredients
      diaryEntries := some b.diaryEntries
      reminders := some b.reminders
      customEmojis := some b.customEmojis }

/-- The mutable state of the `LockService` (lock.service.ts): the `isLocked`
signal, the private `backgroundedAt` timestamp (a JS number or `null`) and
the private `isVerifyingBiometrics` flag. -/
structure LockState where
  isLocked : Bool
  backgroundedAt : Option Int
  isVerifyingBiometrics : Bool
deriving DecidableEq, Repr

/-- `LockService.checkPin` (lock.service.ts, lines 103-110), as a function of
the lock settings and the current `isLocked` value; returns the boolean
result and the new `isLocked` value. -/
def checkPin (settings : LockSettings) (pin : String) (isLocked : Bool) : Bool × Bool :=
  if settings.isEnabled = true ∧ settings.pin = some pin then (true, false)
  else (false, isLocked)

/-- `LockService.handleAppResume` (lock.service.ts, lines 69-82), as a
function of the lock settings, the current time (`Date.now()`) and the lock
state. `!this.backgroundedAt` is true when the timestamp is `null` or the
(falsy) number `0`. -/
def handleAppResume (settings : LockSettings) (now : Int) (st : LockState) : LockState :=
  if st.isVerifyingBiometrics then st
  else
    match st.backgroundedAt with
    | none => st
    | some t =>
        if settings.isEnabled = false ∨ t = 0 then st
        else
          { isLocked := if now - t ≥ settings.timeout then true else st.isLocked
            backgroundedAt := none
            isVerifyingBiometrics := st.isVerifyingBiometrics }

/-- The values held by one of the per-entity form signals of the
`UiService`. In the source these are `Partial<...>` objects; this record is
the union of the fields of all entity forms, every field optional. `amount`
is the numeric dosage amount, `amountStr` the string amount of an active
ingredient form. -/
structure FormValues where
  description : Option String := none
  emoji : Option String := none
  name : Option String := none
  amount : Option Int := none
  amountStr : Option String := none
  unit : Option String := none
  manufacturerId : Option String := none
  activeIngredientId : Option String := none
  dosageId : Option String := none
deriving DecidableEq, Repr

/-- The empty object `{}` used as fresh form values. -/
def emptyFormValues : FormValues := {}

/-- One element of the `UiService.formStack` (ui.service.ts `FormState`):
the entity type, the optional item being edited, the saved form values and
whether an `onSave` callback was attached (the callback itself is a
function and is modelled only by its presence). -/
structure FormState where
  type : CrudEntity
  item : Option FormValues := none
  formValues : FormValues
  hasOnSave : Bool := false
deriving DecidableEq, Repr

/-- `UiService.currentForm` (ui.service.ts, lines 51-54):
`stack[stack.length - 1]`, i.e. the last element, `undefined` on an empty
stack. -/
def currentForm (stack : List FormState) : Option FormState :=
  stack.getLast?

/-- `UiService.cancelForm` (ui.service.ts, lines 147-149):
`stack.slice(0, -1)` removes the topmost element. -/
def cancelForm (stack : List FormState) : List FormState :=
  stack.dropLast

/-- `UiService.openSubCreateForm` (ui.service.ts, lines 127-142). The second
argument is the current value of the live `preparationForm` signal, read
when the parent form is a preparation form. On an empty stack the source
dereferences `undefined` and throws, modelled by `none`. -/
def openSubCreateForm (subFormType : CrudEntity) (preparationForm : FormValues)
    (stack : List FormState) : Option (List FormState) :=
  match stack.getLast? with
  | none => none
  | some currentFormState =>
      let currentFormValues :=
        match currentFormState.type with
        | .Preparation => preparationForm
        | _ => emptyFormValues
      some (stack.dropLast ++
        [{ currentFormState with formValues := currentFormValues },
         { type := subFormType, item := none, formValues := emptyFormValues, hasOnSave := false }])

/-- Restricted model of JS `Number(str)` as used on the pieces of a `"HH:mm"`
time string: the empty string converts to `0`, a string of decimal digits to
its value, anything else to `NaN` (`none`). -/
def jsNumber (str : String) : Option Nat :=
  if str = "" then some 0 else str.toNat?

/-- Value of a base-36 digit as accepted by `parseInt(_, 36)`. -/
def base36DigitVal (c : Char) : Nat :=
  if c.isDigit then c.toNat - '0'.toNat
  else if 'a' ≤ c ∧ c ≤ 'z' then c.toNat - 'a'.toNat + 10
  else c.toNat - 'A'.toNat + 10

/-- Whether `parseInt(_, 36)` accepts a character as a digit. -/
def isBase36Digit (c : Char) : Bool :=
  c.isDigit || ('a' ≤ c && c ≤ 'z') || ('A' ≤ c && c ≤ 'Z')

/-- Model of `parseInt(str, 36)` on the id strings produced by
`generateId()` (lower-case alphanumeric): parses the longest prefix of
base-36 digits, `NaN` (`none`) if there is none. -/
def parseIntBase36 (str : String) : Option Nat :=
  let digits := str.toList.takeWhile isBase36Digit
  if digits.isEmpty then none
  else some (digits.foldl (fun acc c => acc * 36 + base36DigitVal c) 0)

/-- One entry of the `notificationsToSchedule` array built by
`NotificationService.syncNotifications` on a native platform
(notification.service.ts, lines 223-241): the `schedule.on` object is
flattened into the `weekday`, `hour` and `minute` fields. An `hour` or
`minute` of `none` stands for `NaN`/`undefined`. -/
structure ScheduledNotification where
  id : Option Int
  title : String
  body : String
  weekday : Nat
  hour : Option Nat
  minute : Option Nat
  repeats : Bool
deriving DecidableEq, Repr

/-- The notification built for one `(reminder, day)` pair: weekly repeating
schedule on weekday `day` at the hour and minute obtained from
`reminder.time.split(":").map(Number)`. -/
def notificationFor (title body : String) (r : Reminder) (day : Nat) : ScheduledNotification :=
  let parts := (r.time.splitOn ":").map jsNumber
  { id := (parseIntBase36 (r.id.take 6)).map (fun n => (n : Int) + day)
    title := title
    body := body
    weekday := day
    hour := (parts.get? 0).getD none
    minute := (parts.get? 1).getD none
    repeats := true }

/-- The effect of one native `syncNotifications` run: the ids of the pending
notifications that were cancelled and the list passed to
`LocalNotifications.schedule`. -/
structure NativeSyncResult where
  cancelled : List Nat
  scheduled : List ScheduledNotification
deriving DecidableEq, Repr

/-- `NotificationService.syncNotifications` on a native platform
(notification.service.ts, lines 203-247), as a function of the permission
status, the pending notification ids, the translated title/body and the
reminders. When permission is not granted the sync is skipped (`none`).
Otherwise every pending notification is cancelled and, for each reminder and
each of its selected days, one weekly notification is scheduled (when there
are no reminders the method returns right after cancelling, which schedules
nothing, the same as scheduling the empty list). -/
def syncNotificationsNative (granted : Bool) (pending : List Nat)
    (title body : String) (reminders : List Reminder) : Option NativeSyncResult :=
  if granted = false then none
  else
    some
      { cancelled := pending
        scheduled := (reminders.map (fun r => r.days.map (notificationFor title body r))).flatten }

/-- One step of the JS `Map`-based counting in `topPreparations`:
`counts.set(k, (counts.get(k) || 0) + 1)`. A JS `Map` keeps insertion order
and updates an existing key in place, modelled by an association list. -/
def bumpCount (counts : List (String × Nat)) (k : String) : List (String × Nat) :=
  if counts.any (fun p => p.1 == k) then
    counts.map (fun p => if p.1 == k then (p.1, p.2 + 1) else p)
  else counts ++ [(k, 1)]

/-- The counting loop of `StatisticsComponent.topPreparations`
(statistics.component.ts, lines 235-243) over the (already filtered) diary
entries: entries with a truthy `preparationId` bump the count of that id. -/
def addEntryCount (counts : List (String × Nat)) (entry : DiaryEntry) : List (String × Nat) :=
  match entry.preparationId with
  | some pid => if pid = "" then counts else bumpCount counts pid
  | none => counts

/-- The whole counting loop of `topPreparations` over the filtered entries. -/
def buildPrepCounts (entries : List DiaryEntry) : List (String × Nat) :=
  entries.foldl addEntryCount []

/-- One row of the preparation statistics (`PreparationStat` in
statistics.component.ts). -/
structure PreparationStat where
  prep : Preparation
  man : Option Manufacturer
  ai : Option ActiveIngredient
  count : Nat
deriving DecidableEq, Repr

/-- The comparator `(a, b) => b.count - a.count` of `getSortedPrepStats`, as
the boolean "`a` may come before `b`" relation of a stable sort. -/
def countLe (a b : PreparationStat) : Bool :=
  decide (b.count ≤ a.count)

/-- `StatisticsComponent.getSortedPrepStats` (statistics.component.ts, lines
409-420): resolves each counted id against the preparations list, drops ids
whose preparation no longer exists, and sorts descending by count (JS
`Array.prototype.sort` is stable, like `mergeSort`). -/
def getSortedPrepStats (preparations : List Preparation)
    (manufacturers : List Manufacturer) (activeIngredients : List ActiveIngredient)
    (counts : List (String × Nat)) : List PreparationStat :=
  (counts.filterMap fun kc =>
    match preparations.find? (fun p => p.id == kc.1) with
    | none => none
    | some prep =>
        some
          { prep := prep
            man := manufacturers.find? (fun m => prep.manufacturerId == some m.id)
            ai := activeIngredients.find? (fun a => prep.activeIngredientId == some a.id)
            count := kc.2 }).mergeSort countLe

/-- `StatisticsComponent.topPreparations` (statistics.component.ts, lines
235-243) as a function of the filtered diary entries and the reference
lists: the five most frequent preparations. -/
def topPreparations (entries : List DiaryEntry) (preparations : List Preparation)
    (manufacturers : List Manufacturer) (activeIngredients : List ActiveIngredient) :
    List PreparationStat :=
  (getSortedPrepStats preparations manufacturers activeIngredients
    (buildPrepCounts entries)).take 5

/-- The form values refreshed into the parent state by `openSubCreateForm`:
the live preparation form signal when the parent is a preparation form, the
default `{}` of the `switch` otherwise. -/
def refreshedFormValues (t : CrudEntity) (preparationForm : FormValues) : FormValues :=
  match t with
  | .Preparation => preparationForm
  | _ => emptyFormValues

/-- A small concrete application state used to instantiate theorems. -/
def sampleState : AppState :=
  { theme := "light"
    language := "de"
    lockSettings := { isEnabled := true, pin := some "1234", timeout := 30000 }
    moduleSettings := defaultModuleSettings
    moods := [{ id := "1", description := "Gut", emoji := "S" }]
    effects := []
    symptoms := []
    activities := []
    manufacturers := [{ id := "man1", name := "Acme" }]
    dosages := [{ id := "dos1", amount := 10, unit := "mg" }]
    activeIngredients := [{ id := "ai1", amount := "5", unit := "mg" }]
    preparations :=
      [{ id := "prep1", name := "Aspirin", manufacturerId := some "man1",
         activeIngredientId := some "ai1", dosageId := some "dos1", ingredientIds := none }]
    ingredients := []
    diaryEntries :=
      [{ id := "e1", datetime := "2024-01-01T10:00", mood := { id := "1", description := "Gut", emoji := "S" },
         preparationId := some "prep1", dosage := none, effects := [], symptomIds := none,
         activityIds := none, ingredientIds := none, note := none }]
    reminders := [{ id := "rem1", time := "08:30", days := [2, 6] }]
    customEmojis := [] }

/-- C1: cascading delete clears every dangling foreign-key reference. After
`deleteItem("Manufacturer", id)` (resp. `"Dosage"`, `"ActiveIngredient"`)
the entity is gone from its list and no preparation retains that id in the
corresponding foreign-key field; after `deleteItem("Preparation", id)` no
diary entry retains `preparationId = id`. -/
theorem deleteItem_cascades (s : AppState) (id : String) :
    (∀ m ∈ (deleteItem .Manufacturer id s).manufacturers, m.id ≠ id) ∧
    (∀ p ∈ (deleteItem .Manufacturer id s).preparations, p.manufacturerId ≠ some id) ∧
    (∀ d ∈ (deleteItem .Dosage id s).dosages, d.id ≠ id) ∧
    (∀ p ∈ (deleteItem .Dosage id s).preparations, p.dosageId ≠ some id) ∧
    (∀ a ∈ (deleteItem .ActiveIngredient id s).activeIngredients, a.id ≠ id) ∧
    (∀ p ∈ (deleteItem .ActiveIngredient id s).preparations, p.activeIngredientId ≠ some id) ∧
    (∀ p ∈ (deleteItem .Preparation id s).preparations, p.id ≠ id) ∧
    (∀ e ∈ (deleteItem .Preparation id s).diaryEntries, e.preparationId ≠ some id) := by
  refine ⟨?_, ?_, ?_, ?_, ?_, ?_, ?_, ?_⟩
  · intro m hm
    simp only [deleteItem, List.mem_filter, decide_not] at hm
    simpa using hm.2
  · intro p hp
    simp only [deleteItem, List.mem_map] at hp
    obtain ⟨q, _, rfl⟩ := hp
    by_cases h : q.manufacturerId = some id <;> simp [h]
  · intro d hd
    simp only [deleteItem, List.mem_filter, decide_not] at hd
    simpa using hd.2
  · intro p hp
    simp only [deleteItem, List.mem_map] at hp
    obtain ⟨q, _, rfl⟩ := hp
    by_cases h : q.dosageId = some id <;> simp [h]
  · intro a ha
    simp only [deleteItem, List.mem_filter, decide_not] at ha
    simpa using ha.2
  · intro p hp
    simp only [deleteItem, List.mem_map] at hp
    obtain ⟨q, _, rfl⟩ := hp
    by_cases h : q.activeIngredientId = some id <;> simp [h]
  · intro p hp
    simp only [deleteItem, List.mem_filter, decide_not] at hp
    simpa using hp.2
  · intro e he
    simp only [deleteItem, List.mem_map] at he
    obtain ⟨q, _, rfl⟩ := he
    by_cases h : q.preparationId = some id <;> simp [h]

/-- Witness for C1 at a concrete state: the preparation left after deleting
manufacturer `man1` no longer references it. -/
theorem deleteItem_cascades_witness :
    ({ id := "prep1", name := "Aspirin", manufacturerId := none,
       activeIngredientId := some "ai1", dosageId := some "dos1",
       ingredientIds := none } : Preparation).manufacturerId ≠ some "man1" :=
  (deleteItem_cascades sampleState "man1").2.1
    { id := "prep1", name := "Aspirin", manufacturerId := none,
      activeIngredientId := some "ai1", dosageId := some "dos1", ingredientIds := none }
    (by decide)

/-- C10: updating a reference entity via the generic `updateItem` on the
moods, effects or dosages lists does not modify the `diaryEntries` signal:
each diary entry stores its own copies of mood, dosage and effects. -/
theorem updateItem_frame_diaryEntries (s : AppState) (m : Mood) (e : Effect) (d : Dosage) :
    (updateItemMoods s m).diaryEntries = s.diaryEntries ∧
    (updateItemEffects s e).diaryEntries = s.diaryEntries ∧
    (updateItemDosages s d).diaryEntries = s.diaryEntries :=
  ⟨rfl, rfl, rfl⟩

/-- C9: the exported backup is independent of the stored PIN — `exportData`
destructures the `pin` field away before serializing, so two states that
differ only in the PIN export identically. -/
theorem exportData_pin_independent (s : AppState) (p q : Option String) :
    exportData { s with lockSettings := { s.lockSettings with pin := p } } =
      exportData { s with lockSettings := { s.lockSettings with pin := q } } :=
  rfl

/-- C5: the PIN gate. `checkPin(pin)` returns `true` and unlocks exactly
when the lock is enabled and the stored PIN equals the input; otherwise
(lock disabled, mismatch, or stored pin `null`) it returns `false` and
leaves `isLocked` unchanged. -/
theorem checkPin_spec (settings : LockSettings) (pin : String) (isLocked : Bool) :
    ((checkPin settings pin isLocked).1 = true ↔
      settings.isEnabled = true ∧ settings.pin = some pin) ∧
    ((checkPin settings pin isLocked).1 = true → (checkPin settings pin isLocked).2 = false) ∧
    ((checkPin settings pin isLocked).1 = false → (checkPin settings pin isLocked).2 = isLocked) ∧
    (settings.pin = none → checkPin settings pin isLocked = (false, isLocked)) := by
  by_cases h : settings.isEnabled = true ∧ settings.pin = some pin
  · refine ⟨by simp [checkPin, h], by simp [checkPin, h], by simp [checkPin, h], ?_⟩
    intro hnone
    rw [hnone] at h
    exact absurd h.2 (by simp)
  · simp [checkPin, h]

/-- Witness for C5: with the lock enabled and the matching PIN entered, the
gate reports success and unlocks. -/
theorem checkPin_spec_witness :
    (checkPin { isEnabled := true, pin := some "1234", timeout := 0 } "1234" true).2 = false :=
  (checkPin_spec { isEnabled := true, pin := some "1234", timeout := 0 } "1234" true).2.1
    (by decide)

/-- C6 counterexample: the string `"null"` is valid JSON (it parses to the
JSON value `null`, here `ParsedJson.jnull`), yet `importData` returns
`false` on it — `data.theme` throws a `TypeError` on `null` and the `catch`
branch runs. So it is not the case that every string that parses as JSON
makes `importData` return `true`. -/
theorem importData_null_returns_false :
    (importData sampleState (some ParsedJson.jnull)).1 = false :=
  rfl

/-- C6 (amended): `importData` returns `false` on a string that is not valid
JSON and also on the JSON text `null`, leaving the entire state unchanged in
both cases; on every string that parses to a non-null JSON value it returns
`true`. -/
theorem importData_error_handling (s : AppState) (d : ImportFields) :
    importData s none = (false, s) ∧
    importData s (some ParsedJson.jnull) = (false, s) ∧
    (importData s (some (ParsedJson.jobj d))).1 = true :=
  ⟨rfl, rfl, rfl⟩

/-- C7 counterexample: with the lock enabled, a recorded backgrounded
timestamp, and a background time of `9 ≥ timeout = 0`, the claim requires
`handleAppResume` to set `isLocked` to `true`; but because
`isVerifyingBiometrics` is set, the function returns immediately and the app
stays unlocked. -/
theorem handleAppResume_biometrics_counterexample :
    ({ isEnabled := true, pin := none, timeout := 0 } : LockSettings).isEnabled = true ∧
    ({ isLocked := false, backgroundedAt := some 1, isVerifyingBiometrics := true } : LockState).backgroundedAt = some 1 ∧
    (10 : Int) - 1 ≥ ({ isEnabled := true, pin := none, timeout := 0 } : LockSettings).timeout ∧
    (handleAppResume { isEnabled := true, pin := none, timeout := 0 } 10
      { isLocked := false, backgroundedAt := some 1, isVerifyingBiometrics := true }).isLocked = false := by
  refine ⟨rfl, rfl, by decide, rfl⟩

/-- C7 (amended): on resume, `isLocked` is set to `true` exactly when no
biometric verification is in progress, the lock is enabled, a (nonzero,
i.e. truthy) backgrounded timestamp is recorded, and the time spent in the
background is at least the timeout; in every other case `isLocked` is
unchanged. The backgrounded timestamp is cleared exactly when the lock
check runs (not verifying, enabled, truthy timestamp). -/
theorem handleAppResume_spec (settings : LockSettings) (now : Int) (st : LockState) :
    ((st.isVerifyingBiometrics = false ∧ settings.isEnabled = true ∧
        st.backgroundedAt ≠ none ∧ st.backgroundedAt ≠ some 0 ∧
        now - (st.backgroundedAt.getD 0) ≥ settings.timeout) →
      (handleAppResume settings now st).isLocked = true) ∧
    (¬(st.isVerifyingBiometrics = false ∧ settings.isEnabled = true ∧
        st.backgroundedAt ≠ none ∧ st.backgroundedAt ≠ some 0 ∧
        now - (st.backgroundedAt.getD 0) ≥ settings.timeout) →
      (handleAppResume settings now st).isLocked = st.isLocked) ∧
    ((handleAppResume settings now st).backgroundedAt =
      if st.isVerifyingBiometrics = false ∧ settings.isEnabled = true ∧
          st.backgroundedAt ≠ none ∧ st.backgroundedAt ≠ some 0
        then none else st.backgroundedAt) := by
  cases hb : st.backgroundedAt with
  | none =>
      cases hv : st.isVerifyingBiometrics <;> simp [handleAppResume, hb, hv]
  | some t =>
      cases hv : st.isVerifyingBiometrics
      · by_cases he : settings.isEnabled = true
        · by_cases ht : t = 0
          · simp [handleAppResume, hb, hv, he, ht]
          · by_cases htime : now - t ≥ settings.timeout
            · simp [handleAppResume, hb, hv, he, ht, htime]
            · refine ⟨fun h => absurd (by simpa [hb] using h.2.2.2.2) htime, ?_, ?_⟩
              · intro _
                simp [handleAppResume, hb, hv, he, ht, if_neg htime]
              · simp [handleAppResume, hb, hv, he, ht, htime]
        · simp [handleAppResume, hb, hv, he]
      · simp [handleAppResume, hb, hv]

/-- Witness for C7 (amended): lock enabled, backgrounded at time 1, resumed
at time 100000 with a 60000 ms timeout — the app locks. -/
theorem handleAppResume_spec_witness :
    (handleAppResume { isEnabled := true, pin := none, timeout := 60000 } 100000
      { isLocked := false, backgroundedAt := some 1, isVerifyingBiometrics := false }).isLocked = true :=
  (handleAppResume_spec { isEnabled := true, pin := none, timeout := 60000 } 100000
    { isLocked := false, backgroundedAt := some 1, isVerifyingBiometrics := false }).1
    (by refine ⟨rfl, rfl, by decide, by decide, by decide⟩)

/-- C4: the form stack is a LIFO list. `openSubCreateForm` pushes exactly
one new sub-form state with empty form values on top, keeping every state
below in place apart from refreshing the saved form values of the parent (on an
empty stack the source throws); `cancelForm` removes exactly the topmost
state; `currentForm` is the last element of the stack, `undefined` when the
stack is empty. -/
theorem formStack_lifo (sub : CrudEntity) (pf : FormValues)
    (below : List FormState) (parent : FormState) :
    currentForm ([] : List FormState) = none ∧
    currentForm (below ++ [parent]) = some parent ∧
    cancelForm (below ++ [parent]) = below ∧
    openSubCreateForm sub pf (below ++ [parent]) =
      some (below ++
        [{ parent with formValues := refreshedFormValues parent.type pf },
         { type := sub, item := none, formValues := emptyFormValues, hasOnSave := false }]) ∧
    openSubCreateForm sub pf [] = none := by
  refine ⟨rfl, ?_, ?_, ?_, rfl⟩
  · simp [currentForm]
  · simp [cancelForm]
  · simp only [openSubCreateForm, List.getLast?_concat, List.dropLast_concat]
    cases h : parent.type <;> simp [refreshedFormValues, h]

/-- C2: JSON export/import is a faithful backup round trip. Importing the
parse of an exported backup succeeds and restores every data collection
(moods, effects, symptoms, activities, manufacturers, dosages,
activeIngredients, preparations, ingredients, diaryEntries, reminders,
customEmojis) and the theme to exactly their values at export. The
hypothesis pins the theme to its TypeScript type `light | dark` (any
non-empty string would do; `data.theme || "light"` only degrades falsy
values). -/
theorem importData_exportData_roundtrip (s : AppState)
    (h : s.theme = "light" ∨ s.theme = "dark") :
    (importData s (some (parseOfExport (exportData s)))).1 = true ∧
    (importData s (some (parseOfExport (exportData s)))).2.theme = s.theme ∧
    (importData s (some (parseOfExport (exportData s)))).2.moods = s.moods ∧
    (importData s (some (parseOfExport (exportData s)))).2.effects = s.effects ∧
    (importData s (some (parseOfExport (exportData s)))).2.symptoms = s.symptoms ∧
    (importData s (some (parseOfExport (exportData s)))).2.activities = s.activities ∧
    (importData s (some (parseOfExport (exportData s)))).2.manufacturers = s.manufacturers ∧
    (importData s (some (parseOfExport (exportData s)))).2.dosages = s.dosages ∧
    (importData s (some (parseOfExport (exportData s)))).2.activeIngredients = s.activeIngredients ∧
    (importData s (some (parseOfExport (exportData s)))).2.preparations = s.preparations ∧
    (importData s (some (parseOfExport (exportData s)))).2.ingredients = s.ingredients ∧
    (importData s (some (parseOfExport (exportData s)))).2.diaryEntries = s.diaryEntries ∧
    (importData s (some (parseOfExport (exportData s)))).2.reminders = s.reminders ∧
    (importData s (some (parseOfExport (exportData s)))).2.customEmojis = s.customEmojis := by
  refine ⟨rfl, ?_, rfl, rfl, rfl, rfl, rfl, rfl, rfl, rfl, rfl, rfl, rfl, rfl⟩
  rcases h with h | h <;>
    simp [importData, parseOfExport, exportData, jsOrString, h]

/-- Witness for C2 at a concrete state: the round trip reports success and
restores the diary entries. -/
theorem importData_exportData_roundtrip_witness :
    (importData sampleState (some (parseOfExport (exportData sampleState)))).1 = true ∧
    (importData sampleState (some (parseOfExport (exportData sampleState)))).2.diaryEntries =
      sampleState.diaryEntries :=
  ⟨(importData_exportData_roundtrip sampleState (Or.inl rfl)).1,
   (importData_exportData_roundtrip sampleState (Or.inl rfl)).2.2.2.2.2.2.2.2.2.2.2.1⟩

/-- C8: native notification rescheduling with permission granted builds
exactly one notification per (reminder, selected weekday) pair — the total
scheduled equals the sum over all reminders of the length of their `days`
list — each weekly-repeating on that weekday at the hour and minute parsed
from the `"HH:mm"` time string of the reminder, and all previously pending
notifications are cancelled first. -/
theorem syncNotifications_native_spec (pending : List Nat) (title body : String)
    (reminders : List Reminder) :
    syncNotificationsNative true pending title body reminders =
      some
        { cancelled := pending
          scheduled := (reminders.map fun r => r.days.map (notificationFor title body r)).flatten } ∧
    ((reminders.map fun r => r.days.map (notificationFor title body r)).flatten).length =
      (reminders.map fun r => r.days.length).sum ∧
    (∀ r ∈ reminders, ∀ d ∈ r.days,
      notificationFor title body r d ∈
        (reminders.map fun r => r.days.map (notificationFor title body r)).flatten) ∧
    (∀ n ∈ (reminders.map fun r => r.days.map (notificationFor title body r)).flatten,
      ∃ r, r ∈ reminders ∧ ∃ d, d ∈ r.days ∧ n = notificationFor title body r d) ∧
    (∀ (r : Reminder) (d : Nat),
      (notificationFor title body r d).weekday = d ∧
      (notificationFor title body r d).repeats = true ∧
      (notificationFor title body r d).hour =
        (((r.time.splitOn ":").map jsNumber).get? 0).getD none ∧
      (notificationFor title body r d).minute =
        (((r.time.splitOn ":").map jsNumber).get? 1).getD none) := by
  refine ⟨rfl, ?_, ?_, ?_, ?_⟩
  · simp only [List.length_flatten, List.map_map]
    exact congrArg List.sum (List.map_congr_left fun r _ => by simp [Function.comp])
  · intro r hr d hd
    exact List.mem_flatten_of_mem (List.mem_map_of_mem _ hr) (List.mem_map_of_mem _ hd)
  · intro n hn
    simp only [List.mem_flatten, List.mem_map] at hn
    obtain ⟨l, ⟨r, hr, rfl⟩, hn⟩ := hn
    obtain ⟨d, hd, rfl⟩ := List.mem_map.1 hn
    exact ⟨r, hr, d, hd, rfl⟩
  · intro r d
    exact ⟨rfl, rfl, rfl, rfl⟩

/-- Witness for C8: one reminder at 08:30 on two weekdays schedules exactly
two notifications. -/
theorem syncNotifications_native_spec_witness :
    ((([{ id := "rem1", time := "08:30", days := [2, 6] }] : List Reminder).map
        fun r => r.days.map (notificationFor "Title" "Body" r)).flatten).length =
      (([{ id := "rem1", time := "08:30", days := [2, 6] }] : List Reminder).map
        fun r => r.days.length).sum :=
  (syncNotifications_native_spec [7] "Title" "Body"
    [{ id := "rem1", time := "08:30", days := [2, 6] }]).2.1

/-- `counts.get(k) || 0` on the association-list model of the JS `Map`. -/
def lookupCount (counts : List (String × Nat)) (k : String) : Nat :=
  ((counts.find? (fun p => p.1 == k)).map Prod.snd).getD 0

/-- The number of (filtered) diary entries whose `preparationId` equals `k`. -/
def prepEntryCount (entries : List DiaryEntry) (k : String) : Nat :=
  entries.countP (fun e => e.preparationId == some k)

theorem find?_bump_map (l : List (String × Nat)) (k k1 : String) :
    (l.map (fun p => if p.1 == k then (p.1, p.2 + 1) else p)).find? (fun p => p.1 == k1) =
      (l.find? (fun p => p.1 == k1)).map (fun p => if p.1 == k then (p.1, p.2 + 1) else p) := by
  have hcomp :
      ((fun p : String × Nat => p.1 == k1) ∘ (fun p => if p.1 == k then (p.1, p.2 + 1) else p)) =
        (fun p : String × Nat => p.1 == k1) := by
    funext p
    by_cases hk : p.1 = k <;> simp [Function.comp, hk]
  rw [List.find?_map, hcomp]

theorem lookupCount_bumpCount_self (l : List (String × Nat)) (k : String) :
    lookupCount (bumpCount l k) k = lookupCount l k + 1 := by
  unfold bumpCount
  by_cases h : l.any (fun p => p.1 == k)
  · rw [if_pos h]
    have hsome : (l.find? (fun p => p.1 == k)).isSome := by
      rw [List.find?_isSome]
      exact List.any_eq_true.1 h
    obtain ⟨p0, hp0⟩ := Option.isSome_iff_exists.1 hsome
    have hp1 : p0.1 = k := by
      have hpred := List.find?_some hp0
      simpa using hpred
    unfold lookupCount
    rw [find?_bump_map, hp0]
    simp [hp1]
  · rw [if_neg h]
    have hnone : l.find? (fun p => p.1 == k) = none := by
      rw [List.find?_eq_none]
      intro x hx hpx
      exact h (List.any_eq_true.2 ⟨x, hx, hpx⟩)
    unfold lookupCount
    rw [List.find?_append, hnone]
    simp

theorem lookupCount_bumpCount_other (l : List (String × Nat)) (k k1 : String) (h : k1 ≠ k) :
    lookupCount (bumpCount l k) k1 = lookupCount l k1 := by
  unfold bumpCount
  by_cases ha : l.any (fun p => p.1 == k)
  · rw [if_pos ha]
    unfold lookupCount
    rw [find?_bump_map]
    cases hf : l.find? (fun p => p.1 == k1) with
    | none => simp
    | some p0 =>
        have hp1 : p0.1 = k1 := by
          have hpred := List.find?_some hf
          simpa using hpred
        simp [hp1, h]
  · rw [if_neg ha]
    unfold lookupCount
    rw [List.find?_append]
    have hsingle : ([((k, 1) : String × Nat)].find? (fun p => p.1 == k1)) = none := by
      have : ((k : String) == k1) = false := by simp [Ne.symm h]
      simp [List.find?, this]
    rw [hsingle]
    cases l.find? (fun p => p.1 == k1) <;> simp

theorem keys_map_bump (l : List (String × Nat)) (k : String) :
    (l.map (fun p => if p.1 == k then (p.1, p.2 + 1) else p)).map Prod.fst = l.map Prod.fst := by
  rw [List.map_map]
  refine List.map_congr_left fun p _ => ?_
  by_cases hk : p.1 = k <;> simp [Function.comp, hk]

theorem nodup_keys_bumpCount (l : List (String × Nat)) (k : String)
    (h : (l.map Prod.fst).Nodup) : ((bumpCount l k).map Prod.fst).Nodup := by
  unfold bumpCount
  by_cases ha : l.any (fun p => p.1 == k)
  · rw [if_pos ha, keys_map_bump]
    exact h
  · rw [if_neg ha, List.map_append]
    rw [List.nodup_append]
    refine ⟨h, List.nodup_singleton k, ?_⟩
    intro x hx hx2
    have hxk : x = k := by simpa using hx2
    subst hxk
    obtain ⟨p, hp, hpk⟩ := List.mem_map.1 hx
    exact ha (List.any_eq_true.2 ⟨p, hp, by simp [hpk]⟩)

theorem mem_keys_bumpCount (l : List (String × Nat)) (k k1 : String)
    (h : k1 ∈ (bumpCount l k).map Prod.fst) : k1 ∈ l.map Prod.fst ∨ k1 = k := by
  unfold bumpCount at h
  by_cases ha : l.any (fun p => p.1 == k)
  · rw [if_pos ha, keys_map_bump] at h
    exact Or.inl h
  · rw [if_neg ha, List.map_append] at h
    rcases List.mem_append.1 h with h | h
    · exact Or.inl h
    · right
      simpa using h

theorem lookupCount_eq_of_mem (l : List (String × Nat)) (h : (l.map Prod.fst).Nodup)
    (k : String) (c : Nat) (hm : (k, c) ∈ l) : lookupCount l k = c := by
  induction l with
  | nil => cases hm
  | cons a l ih =>
      rw [List.map_cons, List.nodup_cons] at h
      rcases List.mem_cons.1 hm with h1 | h1
      · cases h1
        simp [lookupCount, List.find?]
      · have hk : k ∈ l.map Prod.fst := List.mem_map.2 ⟨(k, c), h1, rfl⟩
        have hne : a.1 ≠ k := fun hEq => h.1 (hEq ▸ hk)
        have hbe : (a.1 == k) = false := by simp [hne]
        have hstep : lookupCount (a :: l) k = lookupCount l k := by
          simp [lookupCount, List.find?, hbe]
        rw [hstep]
        exact ih h.2 h1

theorem lookupCount_buildAux (es : List DiaryEntry) (acc : List (String × Nat))
    (k : String) (hk : k ≠ "") :
    lookupCount (es.foldl addEntryCount acc) k = lookupCount acc k + prepEntryCount es k := by
  induction es generalizing acc with
  | nil => simp [prepEntryCount]
  | cons e es ih =>
      rw [List.foldl_cons, ih]
      unfold prepEntryCount
      rw [List.countP_cons]
      cases hp : e.preparationId with
      | none => simp [addEntryCount, hp]
      | some pid =>
          simp only [addEntryCount, hp]
          by_cases hpe : pid = ""
          · subst hpe
            rw [if_pos rfl]
            have hne : ((some "" : Option String) == some k) = false := by
              simp [Ne.symm hk]
            simp [hne]
          · rw [if_neg hpe]
            by_cases hkk : pid = k
            · subst hkk
              rw [lookupCount_bumpCount_self]
              have hpr : ((some pid : Option String) == some pid) = true := by simp
              simp only [hpr, if_true]
              omega
            · rw [lookupCount_bumpCount_other _ _ _ (fun hEq => hkk hEq.symm)]
              have hpr : ((some pid : Option String) == some k) = false := by simp [hkk]
              simp [hpr]

theorem nodupKeys_buildAux (es : List DiaryEntry) (acc : List (String × Nat))
    (h : (acc.map Prod.fst).Nodup) :
    ((es.foldl addEntryCount acc).map Prod.fst).Nodup := by
  induction es generalizing acc with
  | nil => exact h
  | cons e es ih =>
      rw [List.foldl_cons]
      apply ih
      cases hp : e.preparationId with
      | none =>
          simpa only [addEntryCount, hp] using h
      | some pid =>
          simp only [addEntryCount, hp]
          by_cases hpe : pid = ""
          · rw [if_pos hpe]
            exact h
          · rw [if_neg hpe]
            exact nodup_keys_bumpCount _ _ h

theorem keysNeEmpty_buildAux (es : List DiaryEntry) (acc : List (String × Nat))
    (h : ∀ k ∈ acc.map Prod.fst, k ≠ "") :
    ∀ k ∈ (es.foldl addEntryCount acc).map Prod.fst, k ≠ "" := by
  induction es generalizing acc with
  | nil => exact h
  | cons e es ih =>
      rw [List.foldl_cons]
      apply ih
      intro k hkmem
      cases hp : e.preparationId with
      | none =>
          rw [show addEntryCount acc e = acc by simp [addEntryCount, hp]] at hkmem
          exact h k hkmem
      | some pid =>
          by_cases hpe : pid = ""
          · rw [show addEntryCount acc e = acc by simp [addEntryCount, hp, hpe]] at hkmem
            exact h k hkmem
          · rw [show addEntryCount acc e = bumpCount acc pid by
              simp [addEntryCount, hp, hpe]] at hkmem
            rcases mem_keys_bumpCount _ _ _ hkmem with h1 | h1
            · exact h k h1
            · exact h1 ▸ hpe

theorem buildPrepCounts_spec (entries : List DiaryEntry) (k : String) (c : Nat)
    (hm : (k, c) ∈ buildPrepCounts entries) :
    k ≠ "" ∧ c = prepEntryCount entries k := by
  have hk : k ≠ "" :=
    keysNeEmpty_buildAux entries [] (by simp) k (List.mem_map.2 ⟨(k, c), hm, rfl⟩)
  have hnd := nodupKeys_buildAux entries [] (by simp)
  have hl := lookupCount_eq_of_mem _ hnd k c hm
  rw [lookupCount_buildAux entries [] k hk] at hl
  refine ⟨hk, ?_⟩
  simpa [lookupCount] using hl.symm

theorem countLe_trans (a b c : PreparationStat) :
    countLe a b → countLe b c → countLe a c := by
  unfold countLe
  intro h1 h2
  simp only [decide_eq_true_eq] at *
  omega

theorem countLe_total (a b : PreparationStat) : countLe a b || countLe b a := by
  unfold countLe
  simp only [Bool.or_eq_true, decide_eq_true_eq]
  omega

/-- C3: `topPreparations` returns at most 5 entries, sorted descending by
count; the count of each entry equals the number of (filtered) diary entries
whose `preparationId` equals the id of that preparation, and a preparation that
no longer exists in the preparations list is omitted even if entries still
reference its id (every returned `prep` is an element of the list). -/
theorem topPreparations_spec (entries : List DiaryEntry) (preps : List Preparation)
    (mans : List Manufacturer) (ais : List ActiveIngredient) :
    (topPreparations entries preps mans ais).length ≤ 5 ∧
    (topPreparations entries preps mans ais).Pairwise (fun a b => b.count ≤ a.count) ∧
    ∀ st ∈ topPreparations entries preps mans ais,
      st.prep ∈ preps ∧
      st.count = entries.countP (fun e => e.preparationId == some st.prep.id) := by
  refine ⟨List.length_take_le 5 _, ?_, ?_⟩
  · unfold topPreparations getSortedPrepStats
    refine List.Pairwise.sublist (List.take_sublist 5 _) ?_
    refine (List.sorted_mergeSort countLe_trans countLe_total _).imp ?_
    intro a b h
    simpa [countLe] using h
  · intro st hst
    have h1 : st ∈ getSortedPrepStats preps mans ais (buildPrepCounts entries) :=
      List.mem_of_mem_take hst
    unfold getSortedPrepStats at h1
    rw [List.mem_mergeSort, List.mem_filterMap] at h1
    obtain ⟨⟨k, c⟩, hkc, hf⟩ := h1
    cases hfind : preps.find? (fun p => p.id == k) with
    | none =>
        rw [hfind] at hf
        cases hf
    | some prep =>
        rw [hfind] at hf
        have hmem : prep ∈ preps := List.mem_of_find?_eq_some hfind
        have hid : prep.id = k := by simpa using List.find?_some hfind
        obtain ⟨hk, hc⟩ := buildPrepCounts_spec entries k c hkc
        obtain rfl := Option.some.inj hf
        refine ⟨hmem, ?_⟩
        show c = entries.countP (fun e => e.preparationId == some prep.id)
        rw [hid, hc]
        rfl

/-- Witness for C3 at a concrete state: the single diary entry referencing
`prep1` yields a result of at most five rows. -/
theorem topPreparations_spec_witness :
    (topPreparations sampleState.diaryEntries sampleState.preparations
      sampleState.manufacturers sampleState.activeIngredients).length ≤ 5 :=
  (topPreparations_spec sampleState.diaryEntries sampleState.preparations
    sampleState.manufacturers sampleState.activeIngredients).1
